import Mathlib

/-!
Shallow embedding of the SBSlab repository utilities.

Modelled source files:
* `tools/excel_to_publications.py` — converts the lab's publication
  spreadsheet into a bucketed, sorted JSON structure.
* `optimize_image.py` — generates 1x/2x profile-picture variants.

Spreadsheet cells (as delivered by openpyxl with `values_only=True`) are
modelled by the inductive `Cell`: empty cells, strings, integers and datetime
cells.  Floating-point cell values are outside the model (no claim touches
the float-formatting path of `_fmt_if_top`).  Python's `re` digit class is
modelled by ASCII digits, and `str.strip` / `str.lower` by `String.trim` /
`Char.toLower`, which agree on the ASCII data these scripts process.
-/

namespace SBSlab

/-- A spreadsheet cell value as seen by the converter. -/
inductive Cell where
  | none
  | str (s : String)
  | int (n : Int)
  | dt (y m d : Nat)
deriving Repr, DecidableEq

/-- Zero-padding to two digits, for the `str(datetime)` rendering. -/
def pad2 (n : Nat) : String :=
  if n < 10 then "0" ++ toString n else toString n

/-- Zero-padding to four digits, for the `str(datetime)` rendering. -/
def pad4 (n : Nat) : String :=
  if n < 10 then "000" ++ toString n
  else if n < 100 then "00" ++ toString n
  else if n < 1000 then "0" ++ toString n
  else toString n

/-- Lower-casing a string, modelling Python `str.lower` on ASCII data. -/
def str_lower (s : String) : String := String.mk (s.data.map Char.toLower)

/-- ASCII whitespace, the characters Python `str.strip` removes from the
data these scripts process. -/
def is_space (c : Char) : Bool :=
  c == ' ' || c == '\t' || c == '\n' || c == '\r' || c == '\x0b' || c == '\x0c'

/-- Embeds Python `str.strip` (over the ASCII whitespace characters). -/
def py_strip (s : String) : String :=
  String.mk (((s.data.dropWhile is_space).reverse.dropWhile is_space).reverse)

/-- Embeds `_as_str`: `str(x).strip()` with `None` mapped to the empty
string.  A datetime cell prints as `YYYY-MM-DD 00:00:00`. -/
def as_str : Cell → String
  | Cell.none => ""
  | Cell.str s => py_strip s
  | Cell.int n => toString n
  | Cell.dt y m d => pad4 y ++ "-" ++ pad2 m ++ "-" ++ pad2 d ++ " 00:00:00"

/-- Embeds the string test of `_is_missing` on an already-stripped string. -/
def is_missing_str (s : String) : Bool :=
  s == "" || s == "-" || str_lower s == "nan"

/-- Embeds `_is_missing`. -/
def is_missing (c : Cell) : Bool := is_missing_str (as_str c)

/-- Numeric value of an ASCII digit character. -/
def digit (c : Char) : Nat := c.toNat - 48

/-- Match of the pattern `(?<!\d)(19|20)\d\d` anchored at the current
position: the four leading characters form a year token and the preceding
character (if any) is not a digit. -/
def year_token_at (prev : Option Char) (cs : List Char) : Option Nat :=
  match cs with
  | c1 :: c2 :: c3 :: c4 :: _ =>
    if (match prev with
        | Option.none => true
        | Option.some p => !p.isDigit)
        && ((c1 == '1' && c2 == '9') || (c1 == '2' && c2 == '0'))
        && c3.isDigit && c4.isDigit then
      Option.some (digit c1 * 1000 + digit c2 * 100 + digit c3 * 10 + digit c4)
    else
      Option.none
  | _ => Option.none

/-- Leftmost-match scan for `RE_YEAR`, carrying the previously seen
character for the look-behind. -/
def re_year_search_aux : Option Char → List Char → Option Nat
  | _, [] => Option.none
  | prev, c :: rest =>
    match year_token_at prev (c :: rest) with
    | Option.some y => Option.some y
    | Option.none => re_year_search_aux (Option.some c) rest

/-- Embeds `RE_YEAR.search`, returning the matched year as a number. -/
def re_year_search (s : String) : Option Nat :=
  re_year_search_aux Option.none s.toList

/-- Embeds `RE_DATE_DOT.match`: the whole string must have the shape
`(19|20)\d\d.\d\d.\d\d` with literal dots; returns (year, month, day). -/
def re_date_dot_match (s : String) : Option (Nat × Nat × Nat) :=
  match s.toList with
  | [y1, y2, y3, y4, p1, m1, m2, p2, d1, d2] =>
    if ((y1 == '1' && y2 == '9') || (y1 == '2' && y2 == '0'))
        && y3.isDigit && y4.isDigit
        && p1 == '.' && m1.isDigit && m2.isDigit
        && p2 == '.' && d1.isDigit && d2.isDigit then
      Option.some
        (digit y1 * 1000 + digit y2 * 100 + digit y3 * 10 + digit y4,
         digit m1 * 10 + digit m2,
         digit d1 * 10 + digit d2)
    else
      Option.none
  | _ => Option.none

/-- Embeds `_parse_year_from_any`: first field whose stringification
contains a year token wins. -/
def parse_year_from_any : List Cell → Option Nat
  | [] => Option.none
  | f :: rest =>
    match re_year_search (as_str f) with
    | Option.some y => Option.some y
    | Option.none => parse_year_from_any rest

/-- Embeds `_parse_date_int`: YYYYMMDD as a number, 0 when unknown.  The
`if y:` guard in the source is equivalent to a `None` test because matched
years are at least 1900, hence never the falsy 0. -/
def parse_date_int (c : Cell) : Nat :=
  match c with
  | Cell.none => 0
  | Cell.dt y m d => y * 10000 + m * 100 + d
  | _ =>
    let s := as_str c
    if is_missing_str s then 0
    else
      match re_date_dot_match s with
      | Option.some (y, mo, d) => y * 10000 + mo * 100 + d
      | Option.none =>
        match parse_year_from_any [Cell.str s] with
        | Option.some y => y * 10000
        | Option.none => 0

/-- Rendering of an integer with one forced decimal, Python `f"{n:.1f}"`. -/
def fmt_fixed1 (n : Int) : String := toString n ++ ".0"

/-- Rendering of an integer with two forced decimals, Python `f"{n:.2f}"`. -/
def fmt_fixed2 (n : Int) : String := toString n ++ ".00"

/-- The impact-factor fragment of `_fmt_if_top`. -/
def if_fragment (c : Cell) : String :=
  match c with
  | Cell.int n => "IF " ++ fmt_fixed1 n
  | _ => "IF " ++ as_str c

/-- The top-percentile fragment of `_fmt_if_top`. -/
def top_fragment (c : Cell) : String :=
  match c with
  | Cell.int n => "Top " ++ fmt_fixed2 n ++ "%"
  | _ => "Top " ++ as_str c ++ "%"

/-- Embeds `_fmt_if_top`. -/
def fmt_if_top (if_val top_val : Cell) : String :=
  if is_missing if_val && is_missing top_val then ""
  else
    let parts :=
      (if !(is_missing if_val) then [if_fragment if_val] else [])
        ++ (if !(is_missing top_val) then [top_fragment top_val] else [])
    if parts.isEmpty then "" else " (" ++ String.intercalate ", " parts ++ ")"

/-- Character-list test: does the second list start with the first? -/
def chars_start_with : List Char → List Char → Bool
  | [], _ => true
  | _ :: _, [] => false
  | a :: as, b :: bs => a == b && chars_start_with as bs

/-- Character-list substring containment, scanning left to right. -/
def chars_contain (n : List Char) : List Char → Bool
  | [] => n.isEmpty
  | c :: t => chars_start_with n (c :: t) || chars_contain n t

/-- Embeds Python's `needle in hay` on strings. -/
def str_contains (hay needle : String) : Bool :=
  chars_contain needle.toList hay.toList

/-- A spreadsheet row: the tuple of cell values in column order. -/
abbrev Row := List Cell

/-- Embeds `row[i] if len(row) > i else None`. -/
def getCell (row : Row) (i : Nat) : Cell := row.getD i Cell.none

/-- Column 2 (0-based 1): the title cell, stringified. -/
def row_title (row : Row) : String := as_str (getCell row 1)

/-- Column 3 (0-based 2): the paper-type cell, stringified and lowered. -/
def row_type_l (row : Row) : String := str_lower (as_str (getCell row 2))

/-- The `"journal" in paper_type_l` test. -/
def is_journal_row (row : Row) : Bool := str_contains (row_type_l row) "journal"

/-- The `"conference" in paper_type_l` test. -/
def is_conference_row (row : Row) : Bool := str_contains (row_type_l row) "conference"

/-- A row survives both `continue` filters of the loop: a nonempty title
and a paper type mentioning journal or conference. -/
def qualifies (row : Row) : Bool :=
  row_title row != "" && (is_journal_row row || is_conference_row row)

/-- Column 4 (0-based 3): the main venue. -/
def row_venue_main (row : Row) : String := as_str (getCell row 3)

/-- Column 5 (0-based 4): the raw date cell. -/
def row_date_val (row : Row) : Cell := getCell row 4

/-- Column 6 (0-based 5): the authors. -/
def row_authors (row : Row) : String := as_str (getCell row 5)

/-- Column 7 (0-based 6): the venue detail (volume/pages). -/
def row_venue_detail (row : Row) : String := as_str (getCell row 6)

/-- Column 10 (0-based 9): the impact factor cell. -/
def row_if_val (row : Row) : Cell := getCell row 9

/-- Column 11 (0-based 10): the top-percent cell. -/
def row_top_val (row : Row) : Cell := getCell row 10

/-- The year-inference scan of the loop body:
`_parse_year_from_any(date_val, venue_main, venue_detail, title)`. -/
def row_parsed_year (row : Row) : Option Nat :=
  parse_year_from_any
    [row_date_val row, Cell.str (row_venue_main row),
     Cell.str (row_venue_detail row), Cell.str (row_title row)]

/-- One record of the converter, the `PubRow` dataclass. -/
structure PubRow where
  sheet_pos : Nat
  kind : String
  year : Nat
  date_int : Nat
  title : String
  authors : String
  venue_text : String
deriving Repr, DecidableEq

/-- The venue-text assembly of the loop body, including the IF/Top suffix
appended for journal rows only. -/
def row_venue_text (row : Row) : String :=
  let vm := row_venue_main row
  let vd := row_venue_detail row
  let vt :=
    if vd != "" && vd != "-" then
      (if vm != "" then vm ++ " " ++ vd else vd)
    else vm
  if is_journal_row row then vt ++ fmt_if_top (row_if_val row) (row_top_val row)
  else vt

/-- The resolved year of a row given the carry-forward state `ly`
(`last_year`): the parsed year when present, else the carried year,
else 0. -/
def resolve_year (ly : Option Nat) (row : Row) : Nat :=
  match row_parsed_year row with
  | Option.some y => y
  | Option.none =>
    match ly with
    | Option.some y => y
    | Option.none => 0

/-- The update of `last_year` by a qualifying row: set on a successful
parse, otherwise unchanged. -/
def step_year (ly : Option Nat) (row : Row) : Option Nat :=
  match row_parsed_year row with
  | Option.some y => Option.some y
  | Option.none => ly

/-- Construction of the `PubRow` record for one qualifying row. -/
def make_record (pos : Nat) (ly : Option Nat) (row : Row) : PubRow :=
  { sheet_pos := pos
    kind := if is_journal_row row then "journal" else "proceedings"
    year := resolve_year ly row
    date_int := parse_date_int (row_date_val row)
    title := row_title row
    authors := row_authors row
    venue_text := row_venue_text row }

/-- The loop of `load_excel_rows` over position-tagged rows, producing the
journal and proceedings buckets in sheet order. -/
def load_rows_aux : Option Nat → List (Nat × Row) → List PubRow × List PubRow
  | _, [] => ([], [])
  | ly, (pos, row) :: rest =>
    if qualifies row then
      let r := make_record pos ly row
      let jp := load_rows_aux (step_year ly row) rest
      if r.kind = "journal" then (r :: jp.1, jp.2) else (jp.1, r :: jp.2)
    else
      load_rows_aux ly rest

/-- The same loop flattened to the single list of constructed records in
sheet order (used to express bucket-partition facts). -/
def all_records : Option Nat → List (Nat × Row) → List PubRow
  | _, [] => []
  | ly, (pos, row) :: rest =>
    if qualifies row then
      make_record pos ly row :: all_records (step_year ly row) rest
    else
      all_records ly rest

/-- The `last_year` state after the loop has consumed a list of rows. -/
def years_after : Option Nat → List (Nat × Row) → Option Nat
  | ly, [] => ly
  | ly, (_, row) :: rest =>
    if qualifies row then years_after (step_year ly row) rest
    else years_after ly rest

/-- Python `enumerate(rows, start=n)`. -/
def enum_from : Nat → List Row → List (Nat × Row)
  | _, [] => []
  | n, r :: rest => (n, r) :: enum_from (n + 1) rest

/-- Embeds `load_excel_rows`: data rows are enumerated from sheet
position 2 and folded with an empty carry-forward state. -/
def load_excel_rows (rows : List Row) : List PubRow × List PubRow :=
  load_rows_aux Option.none (enum_from 2 rows)

/-- The sort order of `sort_and_assign_within_year`: ascending in the key
`(-year, -date_int, sheet_pos)`, i.e. year descending, then date
descending, then sheet position ascending. -/
def pubLe (a b : PubRow) : Prop :=
  b.year < a.year
    ∨ (b.year = a.year
        ∧ (b.date_int < a.date_int
            ∨ (b.date_int = a.date_int ∧ a.sheet_pos ≤ b.sheet_pos)))

instance : DecidableRel pubLe := fun a b => by
  unfold pubLe; infer_instance

instance : IsTotal PubRow pubLe := ⟨by
  intro a b; unfold pubLe; omega⟩

instance : IsTrans PubRow pubLe := ⟨by
  intro a b c; unfold pubLe; omega⟩

/-- One serialized entry of the output lists. -/
structure OutRec where
  year : Option Nat
  title : String
  authors : String
  venue : String
  within_year_order : Nat
deriving Repr, DecidableEq

/-- The dictionary built for one record: the internal year 0 is emitted
as `None`, any other year as itself. -/
def make_out (r : PubRow) (w : Nat) : OutRec :=
  { year := if r.year ≠ 0 then Option.some r.year else Option.none
    title := r.title
    authors := r.authors
    venue := r.venue_text
    within_year_order := w }

/-- The within-year ranking loop over the sorted records, carrying
`current_year` and the running counter `within`. -/
def assign_within : Option Nat → Nat → List PubRow → List OutRec
  | _, _, [] => []
  | cur, w, r :: rest =>
    if cur = Option.some r.year then
      make_out r w :: assign_within cur (w + 1) rest
    else
      make_out r 0 :: assign_within (Option.some r.year) 1 rest

/-- Embeds `sort_and_assign_within_year`.  Python's `sorted` is a stable
sort by the key above; it is modelled by the stable `List.insertionSort`
on the corresponding total preorder. -/
def sort_and_assign_within_year (items : List PubRow) : List OutRec :=
  assign_within Option.none 0 (List.insertionSort pubLe items)

/-- JSON values, for the serialized payload. -/
inductive Json where
  | null
  | nat (n : Nat)
  | str (s : String)
  | arr (xs : List Json)
  | obj (kvs : List (String × Json))

/-- Serialization of one output entry, keys in dictionary insertion
order. -/
def out_to_json (o : OutRec) : Json :=
  Json.obj
    [("year",
      match o.year with
      | Option.some y => Json.nat y
      | Option.none => Json.null),
     ("title", Json.str o.title),
     ("authors", Json.str o.authors),
     ("venue", Json.str o.venue),
     ("within_year_order", Json.nat o.within_year_order)]

/-- The payload object built by `main`, parameterized by the
`generated_from` name and the `generated_at` timestamp string. -/
def build_payload (generated_from generated_at : String) (rows : List Row) : Json :=
  let jp := load_excel_rows rows
  let journal := sort_and_assign_within_year jp.1
  let proceedings := sort_and_assign_within_year jp.2
  Json.obj
    [("generated_from", Json.str generated_from),
     ("generated_at", Json.str generated_at),
     ("counts",
      Json.obj
        [("journal", Json.nat journal.length),
         ("proceedings", Json.nat proceedings.length)]),
     ("journal_papers", Json.arr (journal.map out_to_json)),
     ("proceedings", Json.arr (proceedings.map out_to_json))]

/-- Key list of a JSON object. -/
def obj_keys : Json → List String
  | Json.obj kvs => kvs.map Prod.fst
  | _ => []

/-- First binding of a key in an association list. -/
def lookup_key (k : String) : List (String × Json) → Option Json
  | [] => Option.none
  | kv :: rest => if kv.1 = k then Option.some kv.2 else lookup_key k rest

/-- Field access on a JSON object. -/
def get_key (j : Json) (k : String) : Option Json :=
  match j with
  | Json.obj kvs => lookup_key k kvs
  | _ => Option.none

/-- An in-memory PIL image: dimensions, color mode, and pixel data
(abstracted to a list of numbers). -/
structure PILImage where
  width : Nat
  height : Nat
  mode : String
  pixels : List Nat
deriving Repr, DecidableEq

/-- Python's `round` on an exact rational: round half to even. -/
def py_round (q : ℚ) : Int :=
  let f := q.floor
  let fr := q - (f : ℚ)
  if fr < 1 / 2 then f
  else if 1 / 2 < fr then f + 1
  else if f % 2 = 0 then f else f + 1

/-- Embeds `_resize_by_height`.  `img.copy()` yields an image equal to the
source, so the small-image branch returns the input.  Pixel resampling is
performed by the external imaging library and is abstracted by the
`resample` parameter; the scaled width follows the source arithmetic on
exact rationals. -/
def resize_by_height (resample : PILImage → Nat → Nat → List Nat)
    (img : PILImage) (target_h : Nat) : PILImage :=
  if img.height ≤ target_h then img
  else
    let target_w :=
      (py_round ((img.width : ℚ) * (target_h : ℚ) / (img.height : ℚ))).toNat
    { width := target_w
      height := target_h
      mode := img.mode
      pixels := resample img target_w target_h }

/-- The mode-normalization step of `generate_profile_variants`:
`if img.mode in ("RGBA", "P"): img = img.convert("RGB")`.  The pixel
conversion is performed by the external library and abstracted by
`conv`. -/
def convert_mode_step (conv : PILImage → List Nat) (img : PILImage) : PILImage :=
  if img.mode = "RGBA" ∨ img.mode = "P" then
    { width := img.width
      height := img.height
      mode := "RGB"
      pixels := conv img }
  else img

/-- Embeds the pure core of `generate_profile_variants`: normalize the
mode, then produce the 600px and 1200px variants. -/
def generate_profile_variants (conv : PILImage → List Nat)
    (resample : PILImage → Nat → Nat → List Nat) (img : PILImage) :
    PILImage × PILImage :=
  let im := convert_mode_step conv img
  (resize_by_height resample im 600, resize_by_height resample im 1200)

/-! Helper lemmas. -/

lemma make_record_kind (pos : Nat) (ly : Option Nat) (row : Row) :
    (make_record pos ly row).kind =
      if is_journal_row row then "journal" else "proceedings" := rfl

lemma make_record_kind_of_journal (pos : Nat) (ly : Option Nat) (row : Row)
    (hj : is_journal_row row = true) :
    (make_record pos ly row).kind = "journal" := by
  rw [make_record_kind, hj]; rfl

lemma make_record_kind_of_not_journal (pos : Nat) (ly : Option Nat) (row : Row)
    (hj : is_journal_row row = false) :
    (make_record pos ly row).kind = "proceedings" := by
  rw [make_record_kind, hj]; rfl

/-! Claim C3. -/

/-- C3: for every qualifying spreadsheet row, the record's kind is
journal if and only if the row's type field contains the substring
"journal" case-insensitively; every other qualifying row's kind is
proceedings. -/
theorem kind_journal_iff_c3 (pos : Nat) (ly : Option Nat) (row : Row)
    (h : qualifies row = true) :
    ((make_record pos ly row).kind = "journal" ↔ is_journal_row row = true)
    ∧ (is_journal_row row = false →
        (make_record pos ly row).kind = "proceedings") := by
  by_cases hj : is_journal_row row
  · exact ⟨by simp [make_record_kind_of_journal pos ly row hj, hj],
      fun hf => absurd hj (by simp [hf])⟩
  · have hf : is_journal_row row = false := by simpa using hj
    refine ⟨?_, fun _ => make_record_kind_of_not_journal pos ly row hf⟩
    rw [make_record_kind_of_not_journal pos ly row hf, hf]
    simp

/-- Sample journal row: nonempty title, type mentioning Journal, a dotted
date cell. -/
def row_j1 : Row :=
  [Cell.none, Cell.str "Paper A", Cell.str "SCI Journal", Cell.str "Energy",
   Cell.str "2020.05.01", Cell.str "Kim"]

/-- Sample conference row with an unparseable date and no year token in
any scanned field. -/
def row_c_noyear : Row :=
  [Cell.none, Cell.str "Paper B", Cell.str "Conference", Cell.str "Venue",
   Cell.str "-", Cell.str "Lee"]

/-- Sample non-qualifying row: blank title. -/
def row_blank : Row := [Cell.none, Cell.str "", Cell.str "Journal"]

theorem kind_journal_iff_c3_witness :
    qualifies row_j1 = true
    ∧ (make_record 2 Option.none row_j1).kind = "journal" :=
  ⟨by decide,
   (kind_journal_iff_c3 2 Option.none row_j1 (by decide)).1.mpr (by decide)⟩

/-! Claim C4. -/

/-- C4: every constructed record lands in exactly one of the two buckets:
the journal bucket is exactly the journal-kind records, the proceedings
bucket exactly the proceedings-kind records, and each record's kind is one
of the two (non-journal records default to proceedings). -/
theorem buckets_partition_c4 (ly : Option Nat) (l : List (Nat × Row)) :
    (load_rows_aux ly l).1
        = (all_records ly l).filter (fun r => r.kind == "journal")
    ∧ (load_rows_aux ly l).2
        = (all_records ly l).filter (fun r => r.kind == "proceedings")
    ∧ ∀ r ∈ all_records ly l,
        (r.kind = "journal" ∧ r.kind ≠ "proceedings")
          ∨ (r.kind = "proceedings" ∧ r.kind ≠ "journal") := by
  induction l generalizing ly with
  | nil => exact ⟨rfl, rfl, by simp [all_records]⟩
  | cons pr rest ih =>
    obtain ⟨p, row⟩ := pr
    obtain ⟨ih1, ih2, ih3⟩ := ih (step_year ly row)
    by_cases hq : qualifies row
    · by_cases hj : is_journal_row row
      · have hk := make_record_kind_of_journal p ly row hj
        refine ⟨?_, ?_, ?_⟩
        · simp [load_rows_aux, all_records, hq, hk, List.filter_cons, ih1]
        · simp [load_rows_aux, all_records, hq, hk, List.filter_cons, ih2]
        · intro r hr
          rw [all_records, if_pos hq] at hr
          rcases List.mem_cons.mp hr with h | h
          · subst h; exact Or.inl ⟨hk, by rw [hk]; decide⟩
          · exact ih3 r h
      · have hf : is_journal_row row = false := by simpa using hj
        have hk := make_record_kind_of_not_journal p ly row hf
        refine ⟨?_, ?_, ?_⟩
        · simp [load_rows_aux, all_records, hq, hk, List.filter_cons, ih1]
        · simp [load_rows_aux, all_records, hq, hk, List.filter_cons, ih2]
        · intro r hr
          rw [all_records, if_pos hq] at hr
          rcases List.mem_cons.mp hr with h | h
          · subst h; exact Or.inr ⟨hk, by rw [hk]; decide⟩
          · exact ih3 r h
    · obtain ⟨jh1, jh2, jh3⟩ := ih ly
      exact ⟨by simp [load_rows_aux, all_records, hq, jh1],
        by simp [load_rows_aux, all_records, hq, jh2],
        by simpa [all_records, hq] using jh3⟩

theorem buckets_partition_c4_witness :
    (load_rows_aux Option.none [(2, row_j1), (3, row_c_noyear)]).1
        = (all_records Option.none [(2, row_j1), (3, row_c_noyear)]).filter
            (fun r => r.kind == "journal")
    ∧ (load_rows_aux Option.none [(2, row_j1), (3, row_c_noyear)]).2
        = (all_records Option.none [(2, row_j1), (3, row_c_noyear)]).filter
            (fun r => r.kind == "proceedings")
    ∧ ∀ r ∈ all_records Option.none [(2, row_j1), (3, row_c_noyear)],
        (r.kind = "journal" ∧ r.kind ≠ "proceedings")
          ∨ (r.kind = "proceedings" ∧ r.kind ≠ "journal") :=
  buckets_partition_c4 Option.none [(2, row_j1), (3, row_c_noyear)]

/-! Claim C5. -/

/-- C5: the transform from rows to the output object is deterministic:
two payloads built from the same rows, differing only in the generation
timestamp, agree on the counts and on both ordered bucket lists. -/
theorem deterministic_rebuild_c5 (f t1 t2 : String) (rows : List Row) :
    get_key (build_payload f t1 rows) "counts"
        = get_key (build_payload f t2 rows) "counts"
    ∧ get_key (build_payload f t1 rows) "journal_papers"
        = get_key (build_payload f t2 rows) "journal_papers"
    ∧ get_key (build_payload f t1 rows) "proceedings"
        = get_key (build_payload f t2 rows) "proceedings" := by
  refine ⟨?_, ?_, ?_⟩ <;> rfl

/-! Claim C6. -/

/-- C6: for each variant target height (600 for 1x, 1200 for 2x), a source
strictly taller than the target is resized to exactly the target height,
and a source not taller is returned unchanged. -/
theorem resize_height_c6 (resample : PILImage → Nat → Nat → List Nat)
    (img : PILImage) (t : Nat) (ht : t = 600 ∨ t = 1200) :
    (t < img.height → (resize_by_height resample img t).height = t)
    ∧ (img.height ≤ t → resize_by_height resample img t = img) := by
  constructor
  · intro h
    rw [resize_by_height, if_neg (by omega)]
  · intro h
    rw [resize_by_height, if_pos h]

theorem resize_height_c6_witness :
    (600 < (1000 : Nat)
      ∧ (resize_by_height (fun _ _ _ => []) ⟨800, 1000, "RGB", []⟩ 600).height = 600)
    ∧ ((500 : Nat) ≤ 600
      ∧ resize_by_height (fun _ _ _ => []) ⟨800, 500, "RGB", []⟩ 600
          = ⟨800, 500, "RGB", []⟩) :=
  ⟨⟨by decide,
    (resize_height_c6 (fun _ _ _ => []) ⟨800, 1000, "RGB", []⟩ 600 (Or.inl rfl)).1
      (by decide)⟩,
   ⟨by decide,
    (resize_height_c6 (fun _ _ _ => []) ⟨800, 500, "RGB", []⟩ 600 (Or.inl rfl)).2
      (by decide)⟩⟩

/-! Claim C7. -/

/-- C7 counterexample: a grayscale (mode L) source image is in a non-RGB
color mode, yet the conversion step leaves it unconverted — only RGBA and
P modes are converted. -/
theorem convert_mode_c7_counterexample :
    (⟨10, 10, "L", []⟩ : PILImage).mode ≠ "RGB"
    ∧ convert_mode_step (fun i => i.pixels) ⟨10, 10, "L", []⟩
        = ⟨10, 10, "L", []⟩
    ∧ (convert_mode_step (fun i => i.pixels) ⟨10, 10, "L", []⟩).mode ≠ "RGB" := by
  refine ⟨by decide, ?_, by decide⟩
  rw [convert_mode_step, if_neg (by decide)]

/-- C7 amended: before resizing, source images in RGBA or P mode are
converted to RGB; images in any other mode (RGB or otherwise) are passed
through unchanged; both variants are resized from the result of this
step. -/
theorem convert_mode_c7_amended (conv : PILImage → List Nat)
    (resample : PILImage → Nat → Nat → List Nat) (img : PILImage) :
    (img.mode = "RGBA" ∨ img.mode = "P" →
      (convert_mode_step conv img).mode = "RGB")
    ∧ (img.mode ≠ "RGBA" ∧ img.mode ≠ "P" →
      convert_mode_step conv img = img)
    ∧ generate_profile_variants conv resample img
        = (resize_by_height resample (convert_mode_step conv img) 600,
           resize_by_height resample (convert_mode_step conv img) 1200) := by
  refine ⟨?_, ?_, rfl⟩
  · intro h
    rw [convert_mode_step, if_pos h]
  · intro h
    rw [convert_mode_step, if_neg (by tauto)]

theorem convert_mode_c7_amended_witness :
    ((⟨4, 4, "RGBA", []⟩ : PILImage).mode = "RGBA"
      ∧ (convert_mode_step (fun i => i.pixels) ⟨4, 4, "RGBA", []⟩).mode = "RGB")
    ∧ ((⟨4, 4, "L", []⟩ : PILImage).mode ≠ "RGBA"
      ∧ (⟨4, 4, "L", []⟩ : PILImage).mode ≠ "P"
      ∧ convert_mode_step (fun i => i.pixels) ⟨4, 4, "L", []⟩ = ⟨4, 4, "L", []⟩) :=
  ⟨⟨rfl,
    (convert_mode_c7_amended (fun i => i.pixels) (fun _ _ _ => [])
      ⟨4, 4, "RGBA", []⟩).1 (Or.inl rfl)⟩,
   ⟨by decide, by decide,
    (convert_mode_c7_amended (fun i => i.pixels) (fun _ _ _ => [])
      ⟨4, 4, "L", []⟩).2.1 ⟨by decide, by decide⟩⟩⟩

/-! Claim C9. -/

lemma obj_keys_out_to_json (o : OutRec) :
    obj_keys (out_to_json o)
      = ["year", "title", "authors", "venue", "within_year_order"] := rfl

/-- C9: the payload object has exactly the five top-level keys in order;
counts.journal and counts.proceedings equal the lengths of the
journal_papers and proceedings arrays; and every entry of both arrays has
exactly the five entry keys in order. -/
theorem output_schema_c9 (f t : String) (rows : List Row) :
    obj_keys (build_payload f t rows)
        = ["generated_from", "generated_at", "counts", "journal_papers",
           "proceedings"]
    ∧ ∃ js ps : List Json,
        get_key (build_payload f t rows) "journal_papers"
            = Option.some (Json.arr js)
        ∧ get_key (build_payload f t rows) "proceedings"
            = Option.some (Json.arr ps)
        ∧ get_key (build_payload f t rows) "counts"
            = Option.some (Json.obj
                [("journal", Json.nat js.length),
                 ("proceedings", Json.nat ps.length)])
        ∧ (∀ e ∈ js,
            obj_keys e = ["year", "title", "authors", "venue",
              "within_year_order"])
        ∧ (∀ e ∈ ps,
            obj_keys e = ["year", "title", "authors", "venue",
              "within_year_order"]) := by
  refine ⟨rfl,
    (sort_and_assign_within_year (load_excel_rows rows).1).map out_to_json,
    (sort_and_assign_within_year (load_excel_rows rows).2).map out_to_json,
    rfl, rfl, ?_, ?_, ?_⟩
  · show Option.some _ = Option.some _
    rw [List.length_map, List.length_map]
  · intro e he
    obtain ⟨o, _, rfl⟩ := List.mem_map.mp he
    exact obj_keys_out_to_json o
  · intro e he
    obtain ⟨o, _, rfl⟩ := List.mem_map.mp he
    exact obj_keys_out_to_json o

theorem output_schema_c9_witness :
    obj_keys (build_payload "publications_source.xlsx" "2026-10-12T00:00:00Z"
        [row_j1, row_c_noyear])
      = ["generated_from", "generated_at", "counts", "journal_papers",
         "proceedings"] :=
  (output_schema_c9 "publications_source.xlsx" "2026-10-12T00:00:00Z"
    [row_j1, row_c_noyear]).1

/-! Claim C1: sortedness and the dense within-year ranking. -/

/-- Adjacency condition of a dense 0-based within-year ranking: moving to
the next emitted entry, the rank increments inside a year group and resets
to 0 at a year change. -/
def adj_rank (a b : OutRec) : Prop :=
  (b.year = a.year → b.within_year_order = a.within_year_order + 1)
    ∧ (b.year ≠ a.year → b.within_year_order = 0)

lemma make_out_year_eq (a b : PubRow) (wa wb : Nat) :
    ((make_out a wa).year = (make_out b wb).year) ↔ a.year = b.year := by
  unfold make_out
  by_cases ha : a.year = 0 <;> by_cases hb : b.year = 0 <;> simp [ha, hb] <;> omega

lemma assign_within_chain (l : List PubRow) :
    ∀ (cur : Option Nat) (w : Nat),
      List.Chain' adj_rank (assign_within cur w l) := by
  induction l with
  | nil => intro cur w; simp [assign_within]
  | cons r rest ih =>
    intro cur w
    by_cases hc : cur = Option.some r.year
    · simp only [assign_within]
      rw [if_pos hc]
      refine List.chain'_cons'.mpr ⟨?_, ih cur (w + 1)⟩
      intro y hy
      cases rest with
      | nil => simp [assign_within] at hy
      | cons r2 rest2 =>
        by_cases hc2 : cur = Option.some r2.year
        · simp only [assign_within] at hy
          rw [if_pos hc2, List.head?_cons] at hy
          rw [Option.mem_some_iff] at hy
          subst hy
          have hyy : r2.year = r.year := (Option.some.inj (hc ▸ hc2)).symm
          exact ⟨fun _ => rfl,
            fun hne => absurd ((make_out_year_eq r2 r (w + 1) w).mpr hyy) hne⟩
        · simp only [assign_within] at hy
          rw [if_neg hc2, List.head?_cons] at hy
          rw [Option.mem_some_iff] at hy
          subst hy
          have hyy : r2.year ≠ r.year := fun he => hc2 (by rw [hc, he])
          exact ⟨fun heq => absurd ((make_out_year_eq r2 r 0 w).mp heq) hyy,
            fun _ => rfl⟩
    · simp only [assign_within]
      rw [if_neg hc]
      refine List.chain'_cons'.mpr ⟨?_, ih (Option.some r.year) 1⟩
      intro y hy
      cases rest with
      | nil => simp [assign_within] at hy
      | cons r2 rest2 =>
        by_cases hc2 : (Option.some r.year : Option Nat) = Option.some r2.year
        · simp only [assign_within] at hy
          rw [if_pos hc2, List.head?_cons] at hy
          rw [Option.mem_some_iff] at hy
          subst hy
          have hyy : r2.year = r.year := (Option.some.inj hc2).symm
          exact ⟨fun _ => rfl,
            fun hne => absurd ((make_out_year_eq r2 r 1 0).mpr hyy) hne⟩
        · simp only [assign_within] at hy
          rw [if_neg hc2, List.head?_cons] at hy
          rw [Option.mem_some_iff] at hy
          subst hy
          have hyy : r2.year ≠ r.year := fun he => hc2 (by rw [he])
          exact ⟨fun heq => absurd ((make_out_year_eq r2 r 0 0).mp heq) hyy,
            fun _ => rfl⟩

lemma assign_head_zero (l : List PubRow) :
    ∀ o, (assign_within Option.none 0 l).head? = Option.some o →
      o.within_year_order = 0 := by
  cases l with
  | nil => intro o h; simp [assign_within] at h
  | cons r rest =>
    intro o h
    have hc : (Option.none : Option Nat) ≠ Option.some r.year := by simp
    simp only [assign_within] at h
    rw [if_neg hc, List.head?_cons] at h
    rw [← Option.some.inj h]
    rfl

lemma assign_within_map (l : List PubRow) :
    ∀ (cur : Option Nat) (w : Nat),
      (assign_within cur w l).map (fun o => (o.year, o.title, o.authors, o.venue))
        = l.map (fun r =>
            ((if r.year ≠ 0 then Option.some r.year else Option.none),
             r.title, r.authors, r.venue_text)) := by
  induction l with
  | nil => intro cur w; rfl
  | cons r rest ih =>
    intro cur w
    by_cases hc : cur = Option.some r.year <;>
      simp [assign_within, hc, make_out, ih]

/-- C1: each emitted bucket list is the input sorted by year descending,
then date descending, then sheet position ascending (the order `pubLe`);
the emitted entries follow that sorted order; and `within_year_order` is
a dense 0-based ranking along it, starting at 0 and restarting at 0 at
each year change. -/
theorem sorted_dense_rank_c1 (items : List PubRow) :
    List.Sorted pubLe (List.insertionSort pubLe items)
    ∧ (List.insertionSort pubLe items).Perm items
    ∧ (sort_and_assign_within_year items).map
          (fun o => (o.year, o.title, o.authors, o.venue))
        = (List.insertionSort pubLe items).map
            (fun r =>
              ((if r.year ≠ 0 then Option.some r.year else Option.none),
               r.title, r.authors, r.venue_text))
    ∧ (∀ o, (sort_and_assign_within_year items).head? = Option.some o →
        o.within_year_order = 0)
    ∧ List.Chain' adj_rank (sort_and_assign_within_year items) :=
  ⟨List.sorted_insertionSort pubLe items,
   List.perm_insertionSort pubLe items,
   assign_within_map (List.insertionSort pubLe items) Option.none 0,
   assign_head_zero (List.insertionSort pubLe items),
   assign_within_chain (List.insertionSort pubLe items) Option.none 0⟩

/-- Sample record: a 2020 journal paper dated May 1. -/
def pub_ex1 : PubRow := ⟨2, "journal", 2020, 20200501, "A", "x", "V"⟩

/-- Sample record: a 2020 journal paper dated June 1. -/
def pub_ex2 : PubRow := ⟨3, "journal", 2020, 20200601, "B", "y", "W"⟩

theorem sorted_dense_rank_c1_witness :
    List.Sorted pubLe (List.insertionSort pubLe [pub_ex1, pub_ex2])
    ∧ List.Chain' adj_rank (sort_and_assign_within_year [pub_ex1, pub_ex2]) :=
  ⟨(sorted_dense_rank_c1 [pub_ex1, pub_ex2]).1,
   (sorted_dense_rank_c1 [pub_ex1, pub_ex2]).2.2.2.2⟩

/-! Claim C2: year carry-forward. -/

lemma all_records_append (l1 : List (Nat × Row)) :
    ∀ (ly : Option Nat) (l2 : List (Nat × Row)),
      all_records ly (l1 ++ l2)
        = all_records ly l1 ++ all_records (years_after ly l1) l2 := by
  induction l1 with
  | nil => intro ly l2; rfl
  | cons pr rest ih =>
    intro ly l2
    obtain ⟨p, row⟩ := pr
    by_cases hq : qualifies row <;>
      simp [all_records, years_after, hq, ih, List.cons_append]

lemma years_after_of_no_records (l : List (Nat × Row)) :
    ∀ ly, all_records ly l = [] → years_after ly l = ly := by
  induction l with
  | nil => intro ly _; rfl
  | cons pr rest ih =>
    intro ly h
    obtain ⟨p, row⟩ := pr
    by_cases hq : qualifies row
    · simp only [all_records] at h
      rw [if_pos hq] at h
      exact absurd h (List.cons_ne_nil _ _)
    · simp only [all_records] at h
      rw [if_neg hq] at h
      simp only [years_after]
      rw [if_neg hq]
      exact ih ly h

lemma make_record_year_step (p : Nat) (ly : Option Nat) (row : Row) :
    (make_record p ly row).year = (step_year ly row).getD 0 := by
  cases h : row_parsed_year row with
  | some y => simp [make_record, resolve_year, step_year, h]
  | none => cases ly <;> simp [make_record, resolve_year, step_year, h]

lemma all_records_getLast_year (l : List (Nat × Row)) :
    ∀ (ly : Option Nat) (r : PubRow),
      (all_records ly l).getLast? = Option.some r →
        r.year = (years_after ly l).getD 0 := by
  induction l with
  | nil => intro ly r h; simp [all_records] at h
  | cons pr rest ih =>
    intro ly r h
    obtain ⟨p, row⟩ := pr
    by_cases hq : qualifies row
    · simp only [all_records, if_pos hq] at h
      simp only [years_after, if_pos hq]
      cases hrest : all_records (step_year ly row) rest with
      | nil =>
        rw [hrest] at h
        simp at h
        rw [years_after_of_no_records rest (step_year ly row) hrest,
          ← h]
        exact make_record_year_step p ly row
      | cons x xs =>
        rw [hrest, List.getLast?_cons_cons, ← hrest] at h
        exact ih (step_year ly row) r h
    · simp only [all_records, if_neg hq] at h
      simp only [years_after, if_neg hq]
      exact ih ly r h

/-- C2: a qualifying row whose scanned fields yield no parseable year
resolves to the same year as the record of the nearest preceding
qualifying row (the last record produced from the preceding rows). -/
theorem year_carry_forward_c2 (pre post : List (Nat × Row)) (p : Nat) (q : Row)
    (hq : qualifies q = true)
    (hnp : row_parsed_year q = Option.none)
    (hpre : all_records Option.none pre ≠ []) :
    ∃ rprev rq,
      (all_records Option.none pre).getLast? = Option.some rprev
      ∧ all_records Option.none (pre ++ (p, q) :: post)
          = all_records Option.none pre
            ++ rq :: all_records
                (step_year (years_after Option.none pre) q) post
      ∧ rq.year = rprev.year := by
  obtain ⟨rprev, hlast⟩ :
      ∃ rprev, (all_records Option.none pre).getLast? = Option.some rprev := by
    cases hl : (all_records Option.none pre).getLast? with
    | none => exact absurd (List.getLast?_eq_none_iff.mp hl) hpre
    | some rp => exact ⟨rp, rfl⟩
  refine ⟨rprev, make_record p (years_after Option.none pre) q, hlast, ?_, ?_⟩
  · rw [all_records_append]
    simp [all_records, hq]
  · have h2 : step_year (years_after Option.none pre) q
        = years_after Option.none pre := by
      simp [step_year, hnp]
    rw [make_record_year_step, h2]
    exact (all_records_getLast_year pre Option.none rprev hlast).symm

theorem year_carry_forward_c2_witness :
    qualifies row_c_noyear = true
    ∧ ∃ rprev rq,
        (all_records Option.none [(2, row_j1)]).getLast? = Option.some rprev
        ∧ all_records Option.none ([(2, row_j1)] ++ (3, row_c_noyear) :: [])
            = all_records Option.none [(2, row_j1)]
              ++ rq :: all_records
                  (step_year (years_after Option.none [(2, row_j1)])
                    row_c_noyear) []
        ∧ rq.year = rprev.year :=
  ⟨by decide,
   year_carry_forward_c2 [(2, row_j1)] [] 3 row_c_noyear
     (by decide) (by decide) (by decide)⟩

/-! Claim C8: skipped rows contribute nothing. -/

lemma qualifies_false_of_skip (bad : Row)
    (h : row_title bad = ""
      ∨ (is_journal_row bad = false ∧ is_conference_row bad = false)) :
    qualifies bad = false := by
  rcases h with h | ⟨h1, h2⟩
  · simp [qualifies, h]
  · simp [qualifies, h1, h2]

/-- C8: a row with a blank title, or whose type mentions neither journal
nor conference, produces no record and has no effect at all on the rest of
the output — dropping it from the row stream leaves both buckets and the
full record list unchanged (in particular the year carry-forward). -/
theorem skip_rows_c8 (ly : Option Nat) (l1 l2 : List (Nat × Row)) (p : Nat)
    (bad : Row)
    (h : row_title bad = ""
      ∨ (is_journal_row bad = false ∧ is_conference_row bad = false)) :
    load_rows_aux ly (l1 ++ (p, bad) :: l2) = load_rows_aux ly (l1 ++ l2)
    ∧ all_records ly (l1 ++ (p, bad) :: l2) = all_records ly (l1 ++ l2) := by
  have hq : qualifies bad = false := qualifies_false_of_skip bad h
  induction l1 generalizing ly with
  | nil =>
    constructor
    · simp [load_rows_aux, hq]
    · simp [all_records, hq]
  | cons pr rest ih =>
    obtain ⟨pp, row⟩ := pr
    by_cases hqr : qualifies row
    · constructor
      · simp [load_rows_aux, hqr, (ih (step_year ly row)).1]
      · simp [all_records, hqr, (ih (step_year ly row)).2]
    · constructor
      · simp [load_rows_aux, hqr, (ih ly).1]
      · simp [all_records, hqr, (ih ly).2]

theorem skip_rows_c8_witness :
    (row_title row_blank = ""
      ∨ (is_journal_row row_blank = false
          ∧ is_conference_row row_blank = false))
    ∧ load_rows_aux Option.none
          ([(2, row_j1)] ++ (3, row_blank) :: [(4, row_c_noyear)])
        = load_rows_aux Option.none ([(2, row_j1)] ++ [(4, row_c_noyear)])
    ∧ all_records Option.none
          ([(2, row_j1)] ++ (3, row_blank) :: [(4, row_c_noyear)])
        = all_records Option.none ([(2, row_j1)] ++ [(4, row_c_noyear)]) :=
  ⟨Or.inl (by decide),
   (skip_rows_c8 Option.none [(2, row_j1)] [(4, row_c_noyear)] 3 row_blank
     (Or.inl (by decide))).1,
   (skip_rows_c8 Option.none [(2, row_j1)] [(4, row_c_noyear)] 3 row_blank
     (Or.inl (by decide))).2⟩

/-! Claim C10: the year-0 fallback and its null serialization. -/

lemma years_after_unparsed (pre : List (Nat × Row)) :
    ∀ ly, (∀ pr ∈ pre, qualifies pr.2 = true →
        row_parsed_year pr.2 = Option.none) →
      years_after ly pre = ly := by
  induction pre with
  | nil => intro ly _; rfl
  | cons pr rest ih =>
    intro ly h
    obtain ⟨p, row⟩ := pr
    have hrest : ∀ x ∈ rest, qualifies x.2 = true →
        row_parsed_year x.2 = Option.none :=
      fun x hx => h x (List.mem_cons_of_mem _ hx)
    by_cases hqr : qualifies row
    · have hrow : row_parsed_year row = Option.none :=
        h (p, row) (List.mem_cons_self _ _) hqr
      have hstep : step_year ly row = ly := by simp [step_year, hrow]
      simp only [years_after]
      rw [if_pos hqr, hstep]
      exact ih ly hrest
    · simp only [years_after]
      rw [if_neg hqr]
      exact ih ly hrest

/-- C10: a qualifying row with no parseable year, none of whose preceding
qualifying rows yielded a parsed year (skipped rows never update the
carried year, whatever their cells contain), gets internal year 0; a
record with internal year 0 is serialized with a null year, and a record
with a nonzero year is serialized with that integer year. -/
theorem unknown_year_c10 (pre post : List (Nat × Row)) (p : Nat) (q : Row)
    (hq : qualifies q = true)
    (hnp : row_parsed_year q = Option.none)
    (hpre : ∀ pr ∈ pre, qualifies pr.2 = true →
        row_parsed_year pr.2 = Option.none) :
    (make_record p (years_after Option.none pre) q).year = 0
    ∧ (∀ w, (make_out (make_record p (years_after Option.none pre) q) w).year
        = Option.none)
    ∧ all_records Option.none (pre ++ (p, q) :: post)
        = all_records Option.none pre
          ++ make_record p (years_after Option.none pre) q
            :: all_records (step_year (years_after Option.none pre) q) post
    ∧ (∀ (r : PubRow) (w : Nat), r.year ≠ 0 →
        (make_out r w).year = Option.some r.year) := by
  have hya : years_after Option.none pre = Option.none :=
    years_after_unparsed pre Option.none hpre
  have hy0 : (make_record p (years_after Option.none pre) q).year = 0 := by
    rw [hya]
    simp [make_record, resolve_year, hnp]
  refine ⟨hy0, ?_, ?_, ?_⟩
  · intro w; simp [make_out, hy0]
  · rw [all_records_append]
    simp [all_records, hq]
  · intro r w hr; simp [make_out, hr]

/-- Sample non-qualifying stray row that does contain a 4-digit year
token: it is skipped, so it never updates the carried year. -/
def row_stray_year : Row :=
  [Cell.none, Cell.str "", Cell.str "Journal", Cell.str "Note 2021"]

theorem unknown_year_c10_witness :
    qualifies row_stray_year = false
    ∧ row_parsed_year row_stray_year = Option.some 2021
    ∧ (make_record 3 (years_after Option.none [(2, row_stray_year)])
        row_c_noyear).year = 0
    ∧ (make_out (make_record 3 (years_after Option.none [(2, row_stray_year)])
        row_c_noyear) 0).year = Option.none :=
  ⟨by decide, by decide,
   (unknown_year_c10 [(2, row_stray_year)] [] 3 row_c_noyear (by decide)
      (by decide) (by decide)).1,
   (unknown_year_c10 [(2, row_stray_year)] [] 3 row_c_noyear (by decide)
      (by decide) (by decide)).2.1 0⟩

end SBSlab
